import Mathlib

/-!
Verification of the hand-gesture-particles repository.

The repository has two source files:
* `part_000` — a 50000-particle scene whose vertex shader dispatches on
  `templateID` between four shape functions (`heartShape`, `flowerShape`,
  `saturnShape`, `fireworkShape`), scales the result by
  `(1.0 + expansionFactor * 3.0)`, and whose fragment shader blends the
  per-particle color toward an accent color; `getGestureData` simulates the
  control signals and `animate` pushes them into the uniforms.
* `main.js` — a reduced 20000-particle variant with a three-way `getShape`
  and scale `(1.0 + uExpand * 2.0)`.

GLSL float arithmetic is embedded as exact real arithmetic.  The decimal
literals of the source (`6.283185307`, `0.05`, …) are kept verbatim.
GLSL's `normalize` applied to the zero vector is undefined (NaN on real
hardware); we embed geometry that passes through it as `Option Vec3`,
with `none` marking the undefined/NaN case.  `mod(x, y)` is GLSL's
`x - y * floor(x / y)`.
-/

open Real

/-- A GLSL `vec3` over exact reals. -/
@[ext]
structure Vec3 where
  x : ℝ
  y : ℝ
  z : ℝ

/-- Componentwise scalar multiplication, GLSL `v * s`. -/
def smul3 (a : ℝ) (v : Vec3) : Vec3 := ⟨a * v.x, a * v.y, a * v.z⟩

/-- Componentwise addition, GLSL `u + v`. -/
def add3 (u v : Vec3) : Vec3 := ⟨u.x + v.x, u.y + v.y, u.z + v.z⟩

/-- GLSL `length`. -/
noncomputable def norm3 (v : Vec3) : ℝ := Real.sqrt (v.x ^ 2 + v.y ^ 2 + v.z ^ 2)

/-- GLSL `normalize`; `none` on the zero vector, where GLSL is undefined (NaN). -/
noncomputable def normalize3 (v : Vec3) : Option Vec3 :=
  if norm3 v = 0 then none else some (smul3 (norm3 v)⁻¹ v)

/-- GLSL `mix(a, b, w) = a * (1 - w) + b * w`, componentwise. -/
def mix3 (a b : Vec3) (w : ℝ) : Vec3 :=
  ⟨a.x * (1 - w) + b.x * w, a.y * (1 - w) + b.y * w, a.z * (1 - w) + b.z * w⟩

/-- GLSL `mod(x, y) = x - y * floor(x / y)`. -/
noncomputable def glslMod (x y : ℝ) : ℝ := x - y * (⌊x / y⌋ : ℤ)

/-- `part_000` line 3: `let particleCount = 50000;`. -/
def particleCount : ℝ := 50000

/-- `part_000` lines 18–25 (`heartShape`): `angle = index * 6.283185307`,
`x = 16 sin³ angle`, `y = 13 cos angle - 5 cos 2angle - 2 cos 3angle - cos 4angle`,
`z = 0`, result scaled by `0.05`. -/
noncomputable def heartShape (index : ℝ) : Vec3 :=
  let angle := index * 6.283185307
  let r := 0.2 + 0.8 * Real.sin angle
  let x := 16 * Real.sin angle ^ 3
  let y := 13 * Real.cos angle - 5 * Real.cos (2 * angle) - 2 * Real.cos (3 * angle)
    - Real.cos (4 * angle)
  let z : ℝ := 0
  smul3 0.05 ⟨x, y, z⟩

/-- `part_000` lines 28–35 (`flowerShape`): `r = 1 + 0.5 sin (5 angle)`,
`(r cos angle, r sin angle, 0.5 cos (3 angle))` scaled by `1.5`. -/
noncomputable def flowerShape (index : ℝ) : Vec3 :=
  let angle := index * 6.283185307
  let r := 1 + 0.5 * Real.sin (angle * 5)
  smul3 1.5 ⟨r * Real.cos angle, r * Real.sin angle, 0.5 * Real.cos (angle * 3)⟩

/-- `part_000` lines 38–46 (`saturnShape`): ring of radius 2.5 with
`z = sin (time * 0.5 + index * 100.0) * 0.1`.  `time` is the shader uniform. -/
noncomputable def saturnShape (time index : ℝ) : Vec3 :=
  let angle := index * 6.283185307
  let radius : ℝ := 2.5
  ⟨radius * Real.cos angle, radius * Real.sin angle,
    Real.sin (time * 0.5 + index * 100) * 0.1⟩

/-- The un-normalized direction vector of `part_000` lines 54–58; built from the
raw `particleIndex` attribute (not the normalized index). -/
noncomputable def directionSeed (particleIndex : ℝ) : Vec3 :=
  ⟨Real.sin (particleIndex * 1.23) * Real.cos (particleIndex * 3.45),
   Real.sin (particleIndex * 5.67) * Real.cos (particleIndex * 7.89),
   Real.sin (particleIndex * 9.01) * Real.cos (particleIndex * 2.34)⟩

/-- `part_000` line 51: `explosionTime = mod(time * 0.2 + index * 0.01, 1.0)`. -/
noncomputable def explosionTime (index time : ℝ) : ℝ :=
  glslMod (time * 0.2 + index * 0.01) 1

/-- `part_000` lines 49–63 (`fireworkShape`):
`initialPos + normalize(seed) * 5.0 * explosionTime * (1 - explosionTime) * 10.0`.
`none` when the direction normalize is undefined. -/
noncomputable def fireworkShape (particleIndex index time : ℝ) : Option Vec3 :=
  let initialPos : Vec3 := ⟨0, 0, 0⟩
  let et := explosionTime index time
  (normalize3 (directionSeed particleIndex)).map fun dir =>
    add3 initialPos (smul3 (5 * et * (1 - et) * 10) dir)

/-- `part_000` lines 71–79: the template-switching `if` chain of the vertex
shader `main`, with `normalizedIndex = particleIndex / particleCount`. -/
noncomputable def shapeDispatch (templateID particleIndex time : ℝ) : Option Vec3 :=
  let nIndex := particleIndex / particleCount
  if templateID < 0.5 then some (heartShape nIndex)
  else if templateID < 1.5 then some (flowerShape nIndex)
  else if templateID < 2.5 then some (saturnShape time nIndex)
  else fireworkShape particleIndex nIndex time

/-- `part_000` vertex `main` up to line 83: `vec3 position = position;`, the
template dispatch overwrites it, then `position *= (1.0 + expansionFactor * 3.0)`. -/
noncomputable def shaderPosition (bufferPos : Vec3)
    (particleIndex templateID expansionFactor time : ℝ) : Option Vec3 :=
  let position : Option Vec3 := some bufferPos
  let position : Option Vec3 := shapeDispatch templateID particleIndex time
  position.map fun p => smul3 (1 + expansionFactor * 3) p

/-- `part_000` vertex `main` outputs: final position, `vColor = customColor`
(line 67), and `gl_PointSize = (10.0 - expansionFactor * 5.0) * (200.0 /
length(mvPosition.xyz))` (line 87); `mv` abstracts the model-view transform. -/
noncomputable def vertexOutputs (mv : Vec3 → Vec3) (bufferPos customColor : Vec3)
    (particleIndex templateID expansionFactor time : ℝ) :
    Option Vec3 × Vec3 × Option ℝ :=
  let vColor := customColor
  let pos := shaderPosition bufferPos particleIndex templateID expansionFactor time
  let size := pos.map fun p => (10 - expansionFactor * 5) * (200 / norm3 (mv p))
  (pos, vColor, size)

/-- `part_000` lines 152–154 (`createParticles`): the per-particle base color.  -/
def baseColor : Vec3 := ⟨0.2, 0.4, 1⟩

/-- `part_000` fragment shader lines 107–111: the `mix` weight used for the
blend toward the accent color. -/
noncomputable def fragmentMixWeight (templateID time : ℝ) : ℝ :=
  if templateID = 3 then Real.sin (time * 5) * 0.5 + 0.5
  else Real.sin time * 0.2

/-- `part_000` fragment shader lines 106–111: `dynamicColor`. -/
noncomputable def dynamicColor (vColor : Vec3) (templateID time : ℝ) : Vec3 :=
  if templateID = 3 then mix3 vColor ⟨1, 0.5, 0⟩ (fragmentMixWeight templateID time)
  else mix3 vColor ⟨1, 0, 0⟩ (fragmentMixWeight templateID time)

/-- `part_000` lines 188–192 (`getGestureData`): the simulated expansion signal
`0.3 + (sin (t * 1.5) * 0.5 + 0.5) * 0.7`. -/
noncomputable def simulatedExpansion (t : ℝ) : ℝ :=
  0.3 + (Real.sin (t * 1.5) * 0.5 + 0.5) * 0.7

/-- `part_000` line 197 (`getGestureData`): `templateID = (templateID + 1) % 4`. -/
def nextTemplateID (templateID : ℕ) : ℕ := (templateID + 1) % 4

/-- `main.js` lines 22–35 (`getShape`): the reduced three-template variant,
`angle = i * 6.28318`. -/
noncomputable def mainGetShape (id i : ℝ) : Vec3 :=
  let angle := i * 6.28318
  if id < 0.5 then
    smul3 0.4 ⟨16 * Real.sin angle ^ 3,
      13 * Real.cos angle - 5 * Real.cos (2 * angle) - 2 * Real.cos (3 * angle)
        - Real.cos (4 * angle), 0⟩
  else if id < 1.5 then
    let r := 5 + 2 * Real.sin (angle * 6)
    ⟨r * Real.cos angle, r * Real.sin angle, Real.sin (i * 10)⟩
  else
    let r : ℝ := 8
    ⟨r * Real.cos angle, r * Real.sin angle * 0.3, r * Real.sin angle⟩

/-- `main.js` lines 38–39 (`vShader main`): `targetPos = getShape(...)` then
`targetPos *= (1.0 + uExpand * 2.0)`. -/
noncomputable def mainVertexPos (id i uExpand : ℝ) : Vec3 :=
  smul3 (1 + uExpand * 2) (mainGetShape id i)

/-! ### Basic lemmas about the embedding -/

lemma glslMod_one (x : ℝ) : glslMod x 1 = Int.fract x := by
  unfold glslMod Int.fract
  rw [div_one]
  ring

lemma norm3_nonneg (v : Vec3) : 0 ≤ norm3 v := Real.sqrt_nonneg _

lemma norm3_eq_zero_iff (v : Vec3) : norm3 v = 0 ↔ v.x = 0 ∧ v.y = 0 ∧ v.z = 0 := by
  unfold norm3
  rw [Real.sqrt_eq_zero (by positivity)]
  constructor
  · intro h
    refine ⟨?_, ?_, ?_⟩ <;> nlinarith [sq_nonneg v.x, sq_nonneg v.y, sq_nonneg v.z]
  · rintro ⟨hx, hy, hz⟩
    simp [hx, hy, hz]

lemma norm3_smul3 (a : ℝ) (v : Vec3) : norm3 (smul3 a v) = |a| * norm3 v := by
  unfold norm3 smul3
  have h : (a * v.x) ^ 2 + (a * v.y) ^ 2 + (a * v.z) ^ 2
      = a ^ 2 * (v.x ^ 2 + v.y ^ 2 + v.z ^ 2) := by ring
  rw [h, Real.sqrt_mul (sq_nonneg a), Real.sqrt_sq_eq_abs]

lemma norm3_normalize3 {v w : Vec3} (h : normalize3 v = some w) : norm3 w = 1 := by
  unfold normalize3 at h
  by_cases h0 : norm3 v = 0
  · simp [h0] at h
  · rw [if_neg h0] at h
    have hw : w = smul3 (norm3 v)⁻¹ v := by
      simpa using h.symm
    subst hw
    rw [norm3_smul3, abs_inv, abs_of_nonneg (norm3_nonneg v)]
    field_simp

lemma shaderPosition_eq (b : Vec3) (pI tid e t : ℝ) :
    shaderPosition b pI tid e t
      = (shapeDispatch tid pI t).map (fun p => smul3 (1 + e * 3) p) := rfl

/-- The sine of a nonzero rational is nonzero: otherwise `π` would be rational. -/
lemma sin_rat_ne_zero (q : ℚ) (hq : q ≠ 0) : Real.sin (q : ℝ) ≠ 0 := by
  intro h
  obtain ⟨n, hn⟩ := Real.sin_eq_zero_iff.mp h
  rcases eq_or_ne n 0 with rfl | hn0
  · rw [Int.cast_zero, zero_mul] at hn
    exact hq (by exact_mod_cast hn.symm)
  · have hnR : ((n : ℤ) : ℝ) ≠ 0 := Int.cast_ne_zero.mpr hn0
    have : (π : ℝ) = ((q / (n : ℚ) : ℚ) : ℝ) := by
      push_cast
      rw [eq_div_iff hnR]
      linarith [hn]
    exact (irrational_pi.ne_rat _) this

/-- The cosine of a rational is nonzero: otherwise `π` would be rational. -/
lemma cos_rat_ne_zero (q : ℚ) : Real.cos (q : ℝ) ≠ 0 := by
  intro h
  obtain ⟨k, hk⟩ := Real.cos_eq_zero_iff.mp h
  have hk0 : (2 * (k : ℚ) + 1) ≠ 0 := by
    intro h0
    have : (2 * k + 1 : ℤ) = 0 := by exact_mod_cast h0
    omega
  have hkR : (2 * (k : ℝ) + 1) ≠ 0 := by
    intro h0
    exact hk0 (by exact_mod_cast h0)
  have : (π : ℝ) = ((2 * q / (2 * (k : ℚ) + 1) : ℚ) : ℝ) := by
    push_cast
    rw [eq_div_iff hkR]
    linarith [hk]
  exact (irrational_pi.ne_rat _) this

/-- The x component of the direction seed is nonzero at every nonzero rational
raw particle index (in particular at every integer index ≥ 1). -/
lemma directionSeed_x_ne_zero (q : ℚ) (hq : q ≠ 0) :
    (directionSeed (q : ℝ)).x ≠ 0 := by
  have h1 : ((q : ℝ) * 1.23) = ((q * (123 / 100) : ℚ) : ℝ) := by
    push_cast
    norm_num
  have h2 : ((q : ℝ) * 3.45) = ((q * (345 / 100) : ℚ) : ℝ) := by
    push_cast
    norm_num
  have hs : Real.sin ((q : ℝ) * 1.23) ≠ 0 := by
    rw [h1]
    exact sin_rat_ne_zero _ (mul_ne_zero hq (by norm_num))
  have hc : Real.cos ((q : ℝ) * 3.45) ≠ 0 := by
    rw [h2]
    exact cos_rat_ne_zero _
  exact mul_ne_zero hs hc

lemma directionSeed_norm_ne_zero (q : ℚ) (hq : q ≠ 0) :
    norm3 (directionSeed (q : ℝ)) ≠ 0 := by
  intro h
  exact directionSeed_x_ne_zero q hq ((norm3_eq_zero_iff _).mp h).1

lemma fireworkShape_isSome (q : ℚ) (hq : q ≠ 0) (i t : ℝ) :
    (fireworkShape (q : ℝ) i t).isSome := by
  unfold fireworkShape normalize3
  rw [if_neg (directionSeed_norm_ne_zero q hq)]
  rfl

lemma directionSeed_zero : directionSeed 0 = ⟨0, 0, 0⟩ := by
  simp [directionSeed]

lemma norm3_zero_vec : norm3 ⟨0, 0, 0⟩ = 0 := by
  simp [norm3]

lemma fireworkShape_zero (i t : ℝ) : fireworkShape 0 i t = none := by
  unfold fireworkShape normalize3
  rw [directionSeed_zero, if_pos norm3_zero_vec]
  rfl

lemma explosionTime_nonneg (i t : ℝ) : 0 ≤ explosionTime i t := by
  rw [explosionTime, glslMod_one]
  exact Int.fract_nonneg _

lemma explosionTime_lt_one (i t : ℝ) : explosionTime i t < 1 := by
  rw [explosionTime, glslMod_one]
  exact Int.fract_lt_one _

lemma add3_zero (w : Vec3) : add3 ⟨0, 0, 0⟩ w = w := by
  simp [add3]

/-- Whenever the firework shape is defined, its magnitude is exactly
`50 · phase · (1 − phase)`. -/
lemma fireworkShape_norm {p i t : ℝ} {v : Vec3} (h : fireworkShape p i t = some v) :
    norm3 v = 50 * (explosionTime i t * (1 - explosionTime i t)) := by
  unfold fireworkShape at h
  obtain ⟨d, hd, hv⟩ := Option.map_eq_some'.mp h
  have hd1 : norm3 d = 1 := norm3_normalize3 hd
  have h0 : 0 ≤ explosionTime i t := explosionTime_nonneg i t
  have h1 : explosionTime i t < 1 := explosionTime_lt_one i t
  rw [← hv, add3_zero, norm3_smul3, hd1, mul_one,
    abs_of_nonneg (by nlinarith)]
  ring

/-! ### Claim theorems -/

/-- C1 (code bug evidence): the Firework shape's per-particle direction is NOT
well-defined at particle index 0: every sine factor of the direction seed
vanishes there, so the shader normalizes the zero vector (NaN geometry).  With
`templateID = 3` (Firework) the per-particle evaluator therefore produces
undefined geometry for the particle with index 0, contradicting the spec's
requirement that all shape functions return finite, non-NaN vectors. -/
theorem c1_firework_direction_undefined_at_index_zero :
    directionSeed 0 = ⟨0, 0, 0⟩ ∧ fireworkShape 0 0 0 = none ∧
    shapeDispatch 3 0 0 = none := by
  refine ⟨directionSeed_zero, fireworkShape_zero 0 0, ?_⟩
  unfold shapeDispatch
  rw [if_neg (by norm_num), if_neg (by norm_num), if_neg (by norm_num)]
  show fireworkShape 0 (0 / particleCount) 0 = none
  rw [zero_div]
  exact fireworkShape_zero _ 0

/-- C5: both evaluators apply one uniform expansion transform after shape
evaluation: in `part_000`, `finalPosition = shapePosition * (1 + expansion * 3)`
for every template id, particle, and time; in `main.js`,
`finalPosition = shapePosition * (1 + expansion * 2)`.  The scale factor does
not depend on the template id. -/
theorem c5_uniform_expansion_scale :
    (∀ (b : Vec3) (pI tid e t : ℝ),
      shaderPosition b pI tid e t
        = (shapeDispatch tid pI t).map (fun p => smul3 (1 + e * 3) p)) ∧
    (∀ (tid i e : ℝ),
      mainVertexPos tid i e = smul3 (1 + e * 2) (mainGetShape tid i)) :=
  ⟨fun b pI tid e t => shaderPosition_eq b pI tid e t, fun _ _ _ => rfl⟩

/-- C7: the template selector `(templateID + 1) % 4` always stays inside
`[0, 4)`, and advancing it exactly `4 = templateCount` times from any state in
`[0, 4)` returns to the starting state. -/
theorem c7_template_selector_cycles :
    (∀ t : ℕ, nextTemplateID t < 4) ∧
    (∀ t : ℕ, t < 4 → nextTemplateID^[4] t = t) := by
  constructor
  · intro t
    exact Nat.mod_lt _ (by norm_num)
  · intro t ht
    interval_cases t <;> decide

/-- C7 witness: starting from concrete state 2, four advances return to 2. -/
theorem c7_template_selector_cycles_witness :
    2 < 4 ∧ nextTemplateID^[4] 2 = 2 :=
  ⟨by decide, c7_template_selector_cycles.2 2 (by decide)⟩

/-- C10: the rendered outputs (final position, color, point size) are
independent of the stored position buffer: the vertex shader unconditionally
overwrites `position` with a shape-function result before any use, so any two
buffer contents yield identical rendered points for the same particle index,
template, expansion, and time. -/
theorem c10_buffer_independence :
    ∀ (mv : Vec3 → Vec3) (b₁ b₂ c : Vec3) (pI tid e t : ℝ),
      vertexOutputs mv b₁ c pI tid e t = vertexOutputs mv b₂ c pI tid e t := by
  intro mv b₁ b₂ c pI tid e t
  rfl

/-- C4 counterexample: an out-of-range template id (4) falls through to the
Firework branch, which produces undefined (NaN) geometry at particle index 0 —
so the dispatch does not avoid NaN geometry for every particle index. -/
theorem c4_counterexample_nan_fallback : shapeDispatch 4 0 0 = none := by
  unfold shapeDispatch
  rw [if_neg (by norm_num), if_neg (by norm_num), if_neg (by norm_num)]
  show fireworkShape 0 (0 / particleCount) 0 = none
  rw [zero_div]
  exact fireworkShape_zero _ 0

/-- C4 amended: every template id selects a defined shape function (ids below
0.5 — including all negative ids — select Heart; ids at or above 2.5 —
including all ids above 3 — select Firework), and the resulting geometry is
defined for every particle whose raw index is a nonzero rational; only the
Firework branch at raw particle index 0 is undefined. -/
theorem c4_fail_closed_dispatch :
    (∀ tid pI t : ℝ, tid < 0.5 →
      shapeDispatch tid pI t = some (heartShape (pI / particleCount))) ∧
    (∀ tid pI t : ℝ, 2.5 ≤ tid →
      shapeDispatch tid pI t = fireworkShape pI (pI / particleCount) t) ∧
    (∀ (tid : ℝ) (p : ℚ) (t : ℝ), p ≠ 0 → (shapeDispatch tid (p : ℝ) t).isSome) := by
  refine ⟨?_, ?_, ?_⟩
  · intro tid pI t h
    unfold shapeDispatch
    rw [if_pos h]
  · intro tid pI t h
    unfold shapeDispatch
    rw [if_neg (by linarith), if_neg (by linarith), if_neg (by linarith)]
  · intro tid p t hp
    unfold shapeDispatch
    by_cases h0 : tid < 0.5
    · rw [if_pos h0]
      rfl
    by_cases h1 : tid < 1.5
    · rw [if_neg h0, if_pos h1]
      rfl
    by_cases h2 : tid < 2.5
    · rw [if_neg h0, if_neg h1, if_pos h2]
      rfl
    · rw [if_neg h0, if_neg h1, if_neg h2]
      exact fireworkShape_isSome p hp _ _

/-- C4 witness: template id −1 selects Heart, template id 7 selects Firework,
and at template id 7 the geometry of the particle with raw index 1 is defined. -/
theorem c4_fail_closed_dispatch_witness :
    ((-1 : ℝ) < 0.5 ∧ shapeDispatch (-1) 0 0 = some (heartShape (0 / particleCount))) ∧
    ((2.5 : ℝ) ≤ 7 ∧ shapeDispatch 7 0 0 = fireworkShape 0 (0 / particleCount) 0) ∧
    ((1 : ℚ) ≠ 0 ∧ (shapeDispatch 7 ((1 : ℚ) : ℝ) 0).isSome) :=
  ⟨⟨by norm_num, c4_fail_closed_dispatch.1 (-1) 0 0 (by norm_num)⟩,
   ⟨by norm_num, c4_fail_closed_dispatch.2.1 7 0 0 (by norm_num)⟩,
   ⟨by norm_num, c4_fail_closed_dispatch.2.2 7 1 0 (by norm_num)⟩⟩

/-- C9 counterexample: `fireworkPosition(index, time = 0)` is not defined (let
alone approximately the origin) at normalized index 0, because the direction
vector of the particle with raw index 0 normalizes the zero vector. -/
theorem c9_counterexample_undefined_at_zero :
    (fireworkShape 0 0 0).isSome = false := by
  rw [fireworkShape_zero 0 0]
  rfl

/-- C9 amended: the explosion phase `mod(time·0.2 + index·0.01, 1)` lies in
`[0, 1)`; whenever the firework position is defined its magnitude is exactly
`|direction| · 5 · phase · (1 − phase) · 10 = 50·phase·(1 − phase)`, which
vanishes at phase 0, tends to 0 as phase → 1, and has its unique interior
maximum at phase 1/2; the position is defined for every nonzero rational raw
particle index; and at `time = 0` every defined position over normalized
indices in `[0, 1]` has magnitude at most 1/2 (approximately the origin on a
shape of radius 50/4). -/
theorem c9_firework_burst_profile :
    (∀ i t : ℝ, 0 ≤ explosionTime i t ∧ explosionTime i t < 1) ∧
    (∀ p i t : ℝ, (fireworkShape p i t).elim True
      (fun v => norm3 v = 50 * (explosionTime i t * (1 - explosionTime i t)))) ∧
    (∀ i t : ℝ, explosionTime i t * (1 - explosionTime i t) ≤ (1/2) * (1 - (1/2 : ℝ))) ∧
    (∀ i t : ℝ, explosionTime i t ≠ 1/2 →
      explosionTime i t * (1 - explosionTime i t) < (1/2) * (1 - (1/2 : ℝ))) ∧
    (∀ (p : ℚ) (i t : ℝ), p ≠ 0 → (fireworkShape (p : ℝ) i t).isSome) ∧
    (∀ p i : ℝ, 0 ≤ i → i ≤ 1 → (fireworkShape p i 0).elim True
      (fun v => norm3 v ≤ 1/2)) := by
  refine ⟨fun i t => ⟨explosionTime_nonneg i t, explosionTime_lt_one i t⟩,
    ?_, ?_, ?_, fun p i t hp => fireworkShape_isSome p hp i t, ?_⟩
  · intro p i t
    cases h : fireworkShape p i t with
    | none => exact trivial
    | some v => exact fireworkShape_norm h
  · intro i t
    nlinarith [sq_nonneg (explosionTime i t - 1/2)]
  · intro i t h
    have : (0 : ℝ) < (explosionTime i t - 1/2) ^ 2 := by
      have := sub_ne_zero.mpr h
      positivity
    nlinarith [this]
  · intro p i h0 h1
    cases h : fireworkShape p i 0 with
    | none => exact trivial
    | some v =>
      show norm3 v ≤ 1/2
      have hn := fireworkShape_norm h
      have het : explosionTime i 0 = i * 0.01 := by
        unfold explosionTime
        rw [glslMod_one]
        have harg : (0 : ℝ) * 0.2 + i * 0.01 = i * 0.01 := by ring
        rw [harg]
        exact Int.fract_eq_self.mpr ⟨by nlinarith, by nlinarith⟩
      rw [hn, het]
      nlinarith

/-- C9 witness: concrete instances — the particle with raw index 1 has a
defined firework position; at `(index, time) = (0, 0)` the phase is not 1/2 and
the magnitude is strictly below the peak; and at normalized index 1/2, time 0,
any defined position has magnitude at most 1/2. -/
theorem c9_firework_burst_profile_witness :
    ((1 : ℚ) ≠ 0 ∧ (fireworkShape ((1 : ℚ) : ℝ) 0 0).isSome) ∧
    (explosionTime 0 0 ≠ 1/2 ∧
      explosionTime 0 0 * (1 - explosionTime 0 0) < (1/2) * (1 - (1/2 : ℝ))) ∧
    ((0 : ℝ) ≤ 1/2 ∧ (1/2 : ℝ) ≤ 1 ∧
      (fireworkShape 2 (1/2) 0).elim True (fun v => norm3 v ≤ 1/2)) := by
  have het : explosionTime 0 0 = 0 := by
    norm_num [explosionTime, glslMod]
  refine ⟨⟨by norm_num, c9_firework_burst_profile.2.2.2.2.1 1 0 0 (by norm_num)⟩,
    ⟨by rw [het]; norm_num,
      c9_firework_burst_profile.2.2.2.1 0 0 (by rw [het]; norm_num)⟩,
    by norm_num, by norm_num,
    c9_firework_burst_profile.2.2.2.2.2 2 (1/2) (by norm_num) (by norm_num)⟩

lemma heartShape_zero : heartShape 0 = ⟨0, 1/4, 0⟩ := by
  unfold heartShape
  norm_num [smul3]

lemma dispatch_heart_zero : shapeDispatch 0 0 0 = some (heartShape 0) := by
  unfold shapeDispatch
  rw [if_pos (by norm_num)]
  norm_num

/-- Evaluating the whole part_000 position pipeline on the Heart template at
particle 0: the final position is the heart point scaled by `1 + e * 3`. -/
lemma shaderPosition_heart_zero (e : ℝ) :
    shaderPosition ⟨0, 0, 0⟩ 0 0 e 0 = some ⟨0, (1 + e * 3) * (1/4), 0⟩ := by
  rw [shaderPosition_eq, dispatch_heart_zero, heartShape_zero]
  simp [smul3]

/-- C6: for a fixed template, particle and time, and two expansion values
`0 ≤ e₁ ≤ e₂`, the norm of the final position at `e₁` is at most the norm at
`e₂` — expansion scaling is monotone (the code's gain 3 is nonnegative). -/
theorem c6_expansion_monotone (b : Vec3) (pI tid t e₁ e₂ : ℝ) (q₁ q₂ : Vec3)
    (h0 : 0 ≤ e₁) (h12 : e₁ ≤ e₂)
    (h₁ : shaderPosition b pI tid e₁ t = some q₁)
    (h₂ : shaderPosition b pI tid e₂ t = some q₂) :
    norm3 q₁ ≤ norm3 q₂ := by
  rw [shaderPosition_eq] at h₁ h₂
  obtain ⟨p, hp, hq₁⟩ := Option.map_eq_some'.mp h₁
  obtain ⟨p', hp', hq₂⟩ := Option.map_eq_some'.mp h₂
  rw [hp] at hp'
  have hpp : p = p' := by
    exact Option.some_injective _ hp'
  subst hpp
  rw [← hq₁, ← hq₂, norm3_smul3, norm3_smul3,
    abs_of_nonneg (by linarith : (0:ℝ) ≤ 1 + e₁ * 3),
    abs_of_nonneg (by linarith : (0:ℝ) ≤ 1 + e₂ * 3)]
  exact mul_le_mul_of_nonneg_right (by linarith) (norm3_nonneg p)

/-- C6 witness: Heart template, particle 0, expansions 0 and 1: the evaluated
final positions are `(0, 1/4, 0)` and `(0, 1, 0)`, and the first norm is at
most the second. -/
theorem c6_expansion_monotone_witness :
    shaderPosition ⟨0, 0, 0⟩ 0 0 0 0 = some ⟨0, 1/4, 0⟩ ∧
    shaderPosition ⟨0, 0, 0⟩ 0 0 1 0 = some ⟨0, 1, 0⟩ ∧
    ((0:ℝ) ≤ 0 ∧ (0:ℝ) ≤ 1) ∧
    norm3 ⟨0, 1/4, 0⟩ ≤ norm3 ⟨0, 1, 0⟩ := by
  have h₁ : shaderPosition ⟨0, 0, 0⟩ 0 0 0 0 = some ⟨0, 1/4, 0⟩ := by
    rw [shaderPosition_heart_zero]
    norm_num
  have h₂ : shaderPosition ⟨0, 0, 0⟩ 0 0 1 0 = some ⟨0, 1, 0⟩ := by
    rw [shaderPosition_heart_zero]
    norm_num
  exact ⟨h₁, h₂, ⟨le_refl 0, by norm_num⟩,
    c6_expansion_monotone ⟨0, 0, 0⟩ 0 0 0 0 1 _ _ (le_refl 0) (by norm_num) h₁ h₂⟩

/-- C3 counterexample: no clamping happens — feeding expansion 3/2 produces a
different final position than feeding 1, and feeding −3/10 differs from 0
(Heart template, particle 0, time 0). -/
theorem c3_counterexample_no_clamp :
    shaderPosition ⟨0, 0, 0⟩ 0 0 (3/2) 0 ≠ shaderPosition ⟨0, 0, 0⟩ 0 0 1 0 ∧
    shaderPosition ⟨0, 0, 0⟩ 0 0 (-(3/10)) 0 ≠ shaderPosition ⟨0, 0, 0⟩ 0 0 0 0 := by
  rw [shaderPosition_heart_zero, shaderPosition_heart_zero,
    shaderPosition_heart_zero, shaderPosition_heart_zero]
  constructor
  · intro h
    rw [Option.some_inj] at h
    have := congrArg Vec3.y h
    norm_num at this
  · intro h
    rw [Option.some_inj] at h
    have := congrArg Vec3.y h
    norm_num at this

/-- C3 amended: the pipeline uses the expansion value unclamped — the final
position is the shape position scaled by `1 + e * 3` for the raw value `e`, so
3/2 scales by 11/2 (where 1 scales by 4) and −3/10 scales by 1/10 (where 0
scales by 1).  The built-in simulated gesture signal, however, always produces
an expansion inside `[0, 1]` (in fact `[0.3, 1]`). -/
theorem c3_unclamped_expansion :
    (∀ t : ℝ, 0 ≤ simulatedExpansion t ∧ simulatedExpansion t ≤ 1) ∧
    (∀ (b : Vec3) (pI tid t : ℝ) (p : Vec3), shapeDispatch tid pI t = some p →
      shaderPosition b pI tid (3/2) t = some (smul3 (11/2) p) ∧
      shaderPosition b pI tid 1 t = some (smul3 4 p) ∧
      shaderPosition b pI tid (-(3/10)) t = some (smul3 (1/10) p) ∧
      shaderPosition b pI tid 0 t = some (smul3 1 p)) := by
  constructor
  · intro t
    have hs1 := Real.neg_one_le_sin (t * 1.5)
    have hs2 := Real.sin_le_one (t * 1.5)
    unfold simulatedExpansion
    constructor <;> nlinarith
  · intro b pI tid t p hp
    rw [shaderPosition_eq, shaderPosition_eq, shaderPosition_eq,
      shaderPosition_eq, hp]
    refine ⟨?_, ?_, ?_, ?_⟩ <;> simp [smul3] <;> norm_num

/-- C3 witness: the unclamped scaling evaluated concretely on the Heart
template at particle 0, together with the simulated signal's range at time 0. -/
theorem c3_unclamped_expansion_witness :
    (0 ≤ simulatedExpansion 0 ∧ simulatedExpansion 0 ≤ 1) ∧
    (shapeDispatch 0 0 0 = some (heartShape 0) ∧
      shaderPosition ⟨0, 0, 0⟩ 0 0 (3/2) 0 = some (smul3 (11/2) (heartShape 0)) ∧
      shaderPosition ⟨0, 0, 0⟩ 0 0 1 0 = some (smul3 4 (heartShape 0)) ∧
      shaderPosition ⟨0, 0, 0⟩ 0 0 (-(3/10)) 0 = some (smul3 (1/10) (heartShape 0)) ∧
      shaderPosition ⟨0, 0, 0⟩ 0 0 0 0 = some (smul3 1 (heartShape 0))) := by
  obtain ⟨ha, hb, hc, hd⟩ :=
    c3_unclamped_expansion.2 ⟨0, 0, 0⟩ 0 0 0 (heartShape 0) dispatch_heart_zero
  exact ⟨c3_unclamped_expansion.1 0, dispatch_heart_zero, ha, hb, hc, hd⟩

/-- C8 counterexample: for a non-Firework template the blend weight is
`sin(time) * 0.2`, which is negative at `time = π/2 + π` — and the blended red
channel then lies strictly below both endpoint red channels (extrapolation
outside the spanned range). -/
theorem c8_counterexample_negative_weight :
    fragmentMixWeight 0 (π / 2 + π) < 0 ∧
    (dynamicColor baseColor 0 (π / 2 + π)).x < min baseColor.x 1 := by
  have hsin : Real.sin (π / 2 + π) = -1 := by
    rw [Real.sin_add_pi, Real.sin_pi_div_two]
  have hw : fragmentMixWeight 0 (π / 2 + π) = -(0.2 : ℝ) := by
    unfold fragmentMixWeight
    rw [if_neg (by norm_num), hsin]
    norm_num
  refine ⟨by rw [hw]; norm_num, ?_⟩
  unfold dynamicColor
  rw [if_neg (by norm_num), hw]
  norm_num [mix3, baseColor, min_def]

/-- C8 amended: only the Firework template's weight has the `0.5 + 0.5·sin`
form and is bounded in `[0, 1]`; every other template's weight is
`sin(time) * 0.2`, bounded in `[−1/5, 1/5]` and in particular possibly
negative, so non-Firework blends can extrapolate outside the endpoint colors. -/
theorem c8_mix_weight_bounds (tid t : ℝ) :
    (tid = 3 → 0 ≤ fragmentMixWeight tid t ∧ fragmentMixWeight tid t ≤ 1) ∧
    (tid ≠ 3 → -(1/5) ≤ fragmentMixWeight tid t ∧ fragmentMixWeight tid t ≤ 1/5) := by
  constructor
  · intro h
    unfold fragmentMixWeight
    rw [if_pos h]
    have h1 := Real.neg_one_le_sin (t * 5)
    have h2 := Real.sin_le_one (t * 5)
    constructor <;> nlinarith
  · intro h
    unfold fragmentMixWeight
    rw [if_neg h]
    have h1 := Real.neg_one_le_sin t
    have h2 := Real.sin_le_one t
    constructor <;> nlinarith

/-- C8 witness: the bounds evaluated at template 3 and template 0, time 0. -/
theorem c8_mix_weight_bounds_witness :
    ((3:ℝ) = 3 ∧ 0 ≤ fragmentMixWeight 3 0 ∧ fragmentMixWeight 3 0 ≤ 1) ∧
    ((0:ℝ) ≠ 3 ∧ -(1/5) ≤ fragmentMixWeight 0 0 ∧ fragmentMixWeight 0 0 ≤ 1/5) :=
  ⟨⟨rfl, (c8_mix_weight_bounds 3 0).1 rfl⟩,
   ⟨by norm_num, (c8_mix_weight_bounds 0 0).2 (by norm_num)⟩⟩

/-- Sine is 1-Lipschitz. -/
lemma abs_sin_sub_sin_le (a b : ℝ) : |Real.sin a - Real.sin b| ≤ |a - b| := by
  rw [Real.sin_sub_sin]
  calc |2 * Real.sin ((a - b) / 2) * Real.cos ((a + b) / 2)|
      = 2 * |Real.sin ((a - b) / 2)| * |Real.cos ((a + b) / 2)| := by
        rw [abs_mul, abs_mul, abs_two]
    _ ≤ 2 * |(a - b) / 2| * 1 := by
        refine mul_le_mul ?_ (Real.abs_cos_le_one _) (abs_nonneg _) (by positivity)
        exact mul_le_mul_of_nonneg_left Real.abs_sin_le_abs (by norm_num)
    _ = |a - b| := by
        rw [mul_one, abs_div]
        norm_num
        ring

/-- Cosine is 1-Lipschitz. -/
lemma abs_cos_sub_cos_le (a b : ℝ) : |Real.cos a - Real.cos b| ≤ |a - b| := by
  rw [Real.cos_sub_cos]
  calc |(-2) * Real.sin ((a + b) / 2) * Real.sin ((a - b) / 2)|
      = 2 * |Real.sin ((a + b) / 2)| * |Real.sin ((a - b) / 2)| := by
        rw [abs_mul, abs_mul]
        norm_num
    _ ≤ 2 * 1 * |(a - b) / 2| := by
        refine mul_le_mul ?_ Real.abs_sin_le_abs (abs_nonneg _) (by positivity)
        exact mul_le_mul_of_nonneg_left (Real.abs_sin_le_one _) (by norm_num)
    _ = |a - b| := by
        rw [abs_div]
        norm_num
        ring

/-- The shader's `2π` literal `6.283185307` is within `2·10⁻⁶` of `2π`. -/
lemma tau_close : |(6.283185307 : ℝ) - 2 * π| ≤ 1 / 500000 := by
  have h1 := Real.pi_gt_d6
  have h2 := Real.pi_lt_d6
  rw [abs_le]
  constructor <;> nlinarith

/-- `cos` of `k` times the shader's `2π` literal is within `k·2·10⁻⁶` of 1. -/
lemma cos_tau_k (k : ℕ) :
    |Real.cos ((k : ℝ) * 6.283185307) - 1| ≤ (k : ℝ) * (1 / 500000) := by
  have h2pi : Real.cos ((k : ℝ) * (2 * π)) = 1 := Real.cos_nat_mul_two_pi k
  calc |Real.cos ((k : ℝ) * 6.283185307) - 1|
      = |Real.cos ((k : ℝ) * 6.283185307) - Real.cos ((k : ℝ) * (2 * π))| := by
        rw [h2pi]
    _ ≤ |(k : ℝ) * 6.283185307 - (k : ℝ) * (2 * π)| := abs_cos_sub_cos_le _ _
    _ = (k : ℝ) * |(6.283185307 : ℝ) - 2 * π| := by
        rw [← mul_sub, abs_mul, Nat.abs_cast]
    _ ≤ (k : ℝ) * (1 / 500000) :=
        mul_le_mul_of_nonneg_left tau_close (Nat.cast_nonneg k)

/-- `sin` of `k` times the shader's `2π` literal is within `k·2·10⁻⁶` of 0. -/
lemma sin_tau_k (k : ℕ) :
    |Real.sin ((k : ℝ) * 6.283185307)| ≤ (k : ℝ) * (1 / 500000) := by
  have h2pi : Real.sin ((k : ℝ) * (2 * π)) = 0 := by
    have h := Real.sin_add_int_mul_two_pi 0 (k : ℤ)
    rw [zero_add, Real.sin_zero] at h
    rw [← h]
    norm_num
  calc |Real.sin ((k : ℝ) * 6.283185307)|
      = |Real.sin ((k : ℝ) * 6.283185307) - Real.sin ((k : ℝ) * (2 * π))| := by
        rw [h2pi, sub_zero]
    _ ≤ |(k : ℝ) * 6.283185307 - (k : ℝ) * (2 * π)| := abs_sin_sub_sin_le _ _
    _ = (k : ℝ) * |(6.283185307 : ℝ) - 2 * π| := by
        rw [← mul_sub, abs_mul, Nat.abs_cast]
    _ ≤ (k : ℝ) * (1 / 500000) :=
        mul_le_mul_of_nonneg_left tau_close (Nat.cast_nonneg k)

lemma flowerShape_zero : flowerShape 0 = ⟨3/2, 0, 3/4⟩ := by
  unfold flowerShape
  norm_num [smul3]

lemma saturnShape_zero (t : ℝ) : saturnShape t 0 = ⟨5/2, 0, Real.sin (t * 0.5) * 0.1⟩ := by
  unfold saturnShape
  norm_num

/-- The Heart curve wraps: `heartShape 1` agrees with `heartShape 0` within
`10⁻⁴` in every coordinate (the tiny discrepancy is the shader's truncated 2π
literal). -/
lemma heart_wrap :
    |(heartShape 1).x - (heartShape 0).x| ≤ 1/10000 ∧
    |(heartShape 1).y - (heartShape 0).y| ≤ 1/10000 ∧
    (heartShape 1).z = (heartShape 0).z := by
  have hs1 := sin_tau_k 1
  have hc1 := cos_tau_k 1
  have hc2 := cos_tau_k 2
  have hc3 := cos_tau_k 3
  have hc4 := cos_tau_k 4
  push_cast at hs1 hc1 hc2 hc3 hc4
  rw [one_mul] at hs1 hc1
  obtain ⟨hs1l, hs1r⟩ := abs_le.mp hs1
  obtain ⟨hc1l, hc1r⟩ := abs_le.mp hc1
  obtain ⟨hc2l, hc2r⟩ := abs_le.mp hc2
  obtain ⟨hc3l, hc3r⟩ := abs_le.mp hc3
  obtain ⟨hc4l, hc4r⟩ := abs_le.mp hc4
  have hsq : Real.sin 6.283185307 ^ 2 ≤ 1 := by
    nlinarith [Real.neg_one_le_sin 6.283185307, Real.sin_le_one 6.283185307]
  refine ⟨?_, ?_, ?_⟩
  · rw [heartShape_zero]
    unfold heartShape
    simp only [smul3, one_mul]
    rw [sub_zero, abs_le]
    constructor
    · nlinarith [mul_nonneg (by linarith : (0:ℝ) ≤ Real.sin 6.283185307 + 1/500000)
        (sq_nonneg (Real.sin 6.283185307))]
    · nlinarith [mul_nonneg (by linarith : (0:ℝ) ≤ 1/500000 - Real.sin 6.283185307)
        (sq_nonneg (Real.sin 6.283185307))]
  · rw [heartShape_zero]
    unfold heartShape
    simp only [smul3, one_mul]
    rw [abs_le]
    constructor <;> linarith
  · rw [heartShape_zero]
    unfold heartShape
    simp only [smul3, one_mul]
    norm_num

/-- The Flower curve wraps within `10⁻⁴` in every coordinate. -/
lemma flower_wrap :
    |(flowerShape 1).x - (flowerShape 0).x| ≤ 1/10000 ∧
    |(flowerShape 1).y - (flowerShape 0).y| ≤ 1/10000 ∧
    |(flowerShape 1).z - (flowerShape 0).z| ≤ 1/10000 := by
  have hs1 := sin_tau_k 1
  have hs5 := sin_tau_k 5
  have hc1 := cos_tau_k 1
  have hc3 := cos_tau_k 3
  push_cast at hs1 hs5 hc1 hc3
  rw [one_mul, one_mul] at hs1
  rw [one_mul, one_mul] at hc1
  obtain ⟨hs1l, hs1r⟩ := abs_le.mp hs1
  obtain ⟨hs5l, hs5r⟩ := abs_le.mp hs5
  obtain ⟨hc1l, hc1r⟩ := abs_le.mp hc1
  obtain ⟨hc3l, hc3r⟩ := abs_le.mp hc3
  obtain ⟨hs5ol, hs5or⟩ := abs_le.mp (Real.abs_sin_le_one (5 * 6.283185307))
  obtain ⟨hc1ol, hc1or⟩ := abs_le.mp (Real.abs_cos_le_one 6.283185307)
  obtain ⟨hs1ol, hs1or⟩ := abs_le.mp (Real.abs_sin_le_one 6.283185307)
  refine ⟨?_, ?_, ?_⟩
  · rw [flowerShape_zero]
    unfold flowerShape
    simp only [smul3, one_mul]
    rw [mul_comm (6.283185307 : ℝ) 5, abs_le]
    constructor <;> nlinarith
  · rw [flowerShape_zero]
    unfold flowerShape
    simp only [smul3, one_mul]
    rw [mul_comm (6.283185307 : ℝ) 5, abs_le]
    constructor <;> nlinarith
  · rw [flowerShape_zero]
    unfold flowerShape
    simp only [smul3, one_mul]
    rw [mul_comm (6.283185307 : ℝ) 3, abs_le]
    constructor <;> linarith

/-- The Saturn ring wraps within `10⁻⁴` in x and y (for every time). -/
lemma saturn_wrap_xy (t : ℝ) :
    |(saturnShape t 1).x - (saturnShape t 0).x| ≤ 1/10000 ∧
    |(saturnShape t 1).y - (saturnShape t 0).y| ≤ 1/10000 := by
  have hs1 := sin_tau_k 1
  have hc1 := cos_tau_k 1
  push_cast at hs1 hc1
  rw [one_mul] at hs1 hc1
  obtain ⟨hs1l, hs1r⟩ := abs_le.mp hs1
  obtain ⟨hc1l, hc1r⟩ := abs_le.mp hc1
  constructor
  · rw [saturnShape_zero]
    unfold saturnShape
    simp only [one_mul]
    rw [abs_le]
    constructor <;> linarith
  · rw [saturnShape_zero]
    unfold saturnShape
    simp only [one_mul]
    rw [abs_le]
    constructor <;> linarith

/-- `sin 100 < -0.49`: reduce `100` modulo `2π` (`100 − 32π ≈ −0.53`) and use
the cubic lower bound on sine. -/
lemma sin_hundred_lt : Real.sin 100 < -(49/100) := by
  have hgt := Real.pi_gt_d6
  have hlt := Real.pi_lt_d6
  have h100 : Real.sin 100 = Real.sin (100 - 32 * π) := by
    have h := Real.sin_add_int_mul_two_pi (100 - 32 * π) (16 : ℤ)
    have harg : (100 : ℝ) - 32 * π + (16 : ℤ) * (2 * π) = 100 := by
      push_cast
      ring
    rw [harg] at h
    exact h
  have hneg : (100 : ℝ) - 32 * π = -(32 * π - 100) := by ring
  rw [h100, hneg, Real.sin_neg]
  have hy1 : (0.530944 : ℝ) < 32 * π - 100 := by nlinarith
  have hy2 : 32 * π - 100 < 0.530976 := by nlinarith
  have hy0 : (0 : ℝ) < 32 * π - 100 := by linarith
  have hsin := Real.sin_gt_sub_cube hy0 (by linarith : 32 * π - 100 ≤ 1)
  have hy2sq : (32 * π - 100) ^ 2 < 0.282 := by nlinarith
  have hy3 : (32 * π - 100) ^ 3 < 0.15 := by nlinarith [mul_pos hy0 hy0]
  linarith

/-- C2 counterexample: the Saturn ring's z coordinate has a seam at the wrap
point.  At time 0, the z value of `saturnShape` tends (as `ε → 0`) to its value
at index 1, but that value differs from the value at index 0 by more than
`0.049` — half the ripple's amplitude (`z = 0.1 · sin(time/2 + 100·index)`, and
`100` is not an integer multiple of `2π`). -/
theorem c2_counterexample_saturn_seam :
    Filter.Tendsto (fun ε : ℝ => (saturnShape 0 (1 - ε)).z) (nhds 0)
      (nhds ((saturnShape 0 1).z)) ∧
    49/1000 < |(saturnShape 0 1).z - (saturnShape 0 0).z| := by
  constructor
  · show Filter.Tendsto (fun ε : ℝ => Real.sin ((0:ℝ) * 0.5 + (1 - ε) * 100) * 0.1)
      (nhds 0) (nhds (Real.sin ((0:ℝ) * 0.5 + (1:ℝ) * 100) * 0.1))
    have h1 : Continuous (fun ε : ℝ => (0:ℝ) * 0.5 + (1 - ε) * 100) :=
      continuous_const.add ((continuous_const.sub continuous_id).mul continuous_const)
    have hcont : Continuous (fun ε : ℝ => Real.sin ((0:ℝ) * 0.5 + (1 - ε) * 100) * 0.1) :=
      (Real.continuous_sin.comp h1).mul continuous_const
    have h := hcont.tendsto 0
    convert h using 2
    norm_num
  · show 49/1000 < |Real.sin ((0:ℝ) * 0.5 + (1:ℝ) * 100) * 0.1 -
      Real.sin ((0:ℝ) * 0.5 + (0:ℝ) * 100) * 0.1|
    norm_num [Real.sin_zero]
    have hs := sin_hundred_lt
    have hneg : Real.sin 100 * (1/10 : ℝ) < 0 := by nlinarith
    rw [abs_of_neg hneg]
    nlinarith

/-- The `main.js` 2π literal `6.28318` is within `6·10⁻⁶` of `2π`. -/
lemma tau_main_close : |(6.28318 : ℝ) - 2 * π| ≤ 3 / 500000 := by
  have h1 := Real.pi_gt_d6
  have h2 := Real.pi_lt_d6
  rw [abs_le]
  constructor <;> nlinarith

/-- `cos` of `k` times the `main.js` 2π literal is within `k·6·10⁻⁶` of 1. -/
lemma cos_tau6_k (k : ℕ) :
    |Real.cos ((k : ℝ) * 6.28318) - 1| ≤ (k : ℝ) * (3 / 500000) := by
  have h2pi : Real.cos ((k : ℝ) * (2 * π)) = 1 := Real.cos_nat_mul_two_pi k
  calc |Real.cos ((k : ℝ) * 6.28318) - 1|
      = |Real.cos ((k : ℝ) * 6.28318) - Real.cos ((k : ℝ) * (2 * π))| := by
        rw [h2pi]
    _ ≤ |(k : ℝ) * 6.28318 - (k : ℝ) * (2 * π)| := abs_cos_sub_cos_le _ _
    _ = (k : ℝ) * |(6.28318 : ℝ) - 2 * π| := by
        rw [← mul_sub, abs_mul, Nat.abs_cast]
    _ ≤ (k : ℝ) * (3 / 500000) :=
        mul_le_mul_of_nonneg_left tau_main_close (Nat.cast_nonneg k)

/-- `sin` of `k` times the `main.js` 2π literal is within `k·6·10⁻⁶` of 0. -/
lemma sin_tau6_k (k : ℕ) :
    |Real.sin ((k : ℝ) * 6.28318)| ≤ (k : ℝ) * (3 / 500000) := by
  have h2pi : Real.sin ((k : ℝ) * (2 * π)) = 0 := by
    have h := Real.sin_add_int_mul_two_pi 0 (k : ℤ)
    rw [zero_add, Real.sin_zero] at h
    rw [← h]
    norm_num
  calc |Real.sin ((k : ℝ) * 6.28318)|
      = |Real.sin ((k : ℝ) * 6.28318) - Real.sin ((k : ℝ) * (2 * π))| := by
        rw [h2pi, sub_zero]
    _ ≤ |(k : ℝ) * 6.28318 - (k : ℝ) * (2 * π)| := abs_sin_sub_sin_le _ _
    _ = (k : ℝ) * |(6.28318 : ℝ) - 2 * π| := by
        rw [← mul_sub, abs_mul, Nat.abs_cast]
    _ ≤ (k : ℝ) * (3 / 500000) :=
        mul_le_mul_of_nonneg_left tau_main_close (Nat.cast_nonneg k)

/-- `sin 10 < -0.52`: reduce `10` modulo `2π` (`10 − 2π ≈ 3.7168 ∈ (π, 3π/2)`)
and use the cubic lower bound on sine. -/
lemma sin_ten_lt : Real.sin 10 < -(52/100) := by
  have hgt := Real.pi_gt_d6
  have hlt := Real.pi_lt_d6
  have h10 : Real.sin 10 = Real.sin (10 - 2 * π) := by
    have h := Real.sin_add_int_mul_two_pi (10 - 2 * π) (1 : ℤ)
    have harg : (10 : ℝ) - 2 * π + (1 : ℤ) * (2 * π) = 10 := by
      push_cast
      ring
    rw [harg] at h
    exact h
  have hb : Real.sin (10 - 2 * π) = -Real.sin (10 - 3 * π) := by
    have h := Real.sin_add_pi (10 - 3 * π)
    rw [show (10 : ℝ) - 3 * π + π = 10 - 2 * π from by ring] at h
    exact h
  rw [h10, hb]
  have hw1 : (0.575221 : ℝ) < 10 - 3 * π := by nlinarith
  have hw2 : 10 - 3 * π < 0.575224 := by nlinarith
  have hw0 : (0 : ℝ) < 10 - 3 * π := by linarith
  have hsin := Real.sin_gt_sub_cube hw0 (by linarith : 10 - 3 * π ≤ 1)
  have hwsq : (10 - 3 * π) ^ 2 < 0.34 := by nlinarith
  have hwcube : (10 - 3 * π) ^ 3 < 0.196 := by nlinarith [mul_pos hw0 hw0]
  linarith

lemma mainGetShape_heart_zero : mainGetShape 0 0 = ⟨0, 2, 0⟩ := by
  unfold mainGetShape
  rw [if_pos (by norm_num : (0:ℝ) < 0.5)]
  norm_num [smul3]

lemma mainGetShape_flower_zero : mainGetShape 1 0 = ⟨5, 0, 0⟩ := by
  unfold mainGetShape
  rw [if_neg (by norm_num : ¬ (1:ℝ) < 0.5), if_pos (by norm_num : (1:ℝ) < 1.5)]
  norm_num

lemma mainGetShape_saturn_zero : mainGetShape 2 0 = ⟨8, 0, 0⟩ := by
  unfold mainGetShape
  rw [if_neg (by norm_num : ¬ (2:ℝ) < 0.5), if_neg (by norm_num : ¬ (2:ℝ) < 1.5)]
  norm_num

/-- The `main.js` Heart branch wraps within `2·10⁻⁴` in x and y; its z is
identically 0. -/
lemma main_heart_wrap :
    |(mainGetShape 0 1).x - (mainGetShape 0 0).x| ≤ 1/5000 ∧
    |(mainGetShape 0 1).y - (mainGetShape 0 0).y| ≤ 1/5000 ∧
    (mainGetShape 0 1).z = (mainGetShape 0 0).z := by
  have hs1 := sin_tau6_k 1
  have hc1 := cos_tau6_k 1
  have hc2 := cos_tau6_k 2
  have hc3 := cos_tau6_k 3
  have hc4 := cos_tau6_k 4
  push_cast at hs1 hc1 hc2 hc3 hc4
  rw [one_mul, one_mul] at hs1
  rw [one_mul, one_mul] at hc1
  obtain ⟨hs1l, hs1r⟩ := abs_le.mp hs1
  obtain ⟨hc1l, hc1r⟩ := abs_le.mp hc1
  obtain ⟨hc2l, hc2r⟩ := abs_le.mp hc2
  obtain ⟨hc3l, hc3r⟩ := abs_le.mp hc3
  obtain ⟨hc4l, hc4r⟩ := abs_le.mp hc4
  have hsq : Real.sin 6.28318 ^ 2 ≤ 1 := by
    nlinarith [Real.neg_one_le_sin 6.28318, Real.sin_le_one 6.28318]
  refine ⟨?_, ?_, ?_⟩
  · rw [mainGetShape_heart_zero]
    unfold mainGetShape
    rw [if_pos (by norm_num : (0:ℝ) < 0.5)]
    simp only [smul3, one_mul]
    rw [sub_zero, abs_le]
    constructor
    · nlinarith [mul_nonneg (by linarith : (0:ℝ) ≤ Real.sin 6.28318 + 3/500000)
        (sq_nonneg (Real.sin 6.28318))]
    · nlinarith [mul_nonneg (by linarith : (0:ℝ) ≤ 3/500000 - Real.sin 6.28318)
        (sq_nonneg (Real.sin 6.28318))]
  · rw [mainGetShape_heart_zero]
    unfold mainGetShape
    rw [if_pos (by norm_num : (0:ℝ) < 0.5)]
    simp only [smul3, one_mul]
    rw [abs_le]
    constructor <;> linarith
  · rw [mainGetShape_heart_zero]
    unfold mainGetShape
    rw [if_pos (by norm_num : (0:ℝ) < 0.5)]
    simp only [smul3, one_mul]
    norm_num

/-- The `main.js` Flower branch wraps within `2·10⁻⁴` in x and y, but its z
coordinate `sin(10·i)` has a wrap seam larger than 1/2 (`|sin 10| ≈ 0.544`). -/
lemma main_flower_wrap :
    |(mainGetShape 1 1).x - (mainGetShape 1 0).x| ≤ 1/5000 ∧
    |(mainGetShape 1 1).y - (mainGetShape 1 0).y| ≤ 1/5000 ∧
    1/2 < |(mainGetShape 1 1).z - (mainGetShape 1 0).z| := by
  have hs1 := sin_tau6_k 1
  have hs6 := sin_tau6_k 6
  have hc1 := cos_tau6_k 1
  push_cast at hs1 hs6 hc1
  rw [one_mul, one_mul] at hs1
  rw [one_mul, one_mul] at hc1
  obtain ⟨hs1l, hs1r⟩ := abs_le.mp hs1
  obtain ⟨hs6l, hs6r⟩ := abs_le.mp hs6
  obtain ⟨hc1l, hc1r⟩ := abs_le.mp hc1
  obtain ⟨hs6ol, hs6or⟩ := abs_le.mp (Real.abs_sin_le_one (6 * 6.28318))
  obtain ⟨hc1ol, hc1or⟩ := abs_le.mp (Real.abs_cos_le_one 6.28318)
  obtain ⟨hs1ol, hs1or⟩ := abs_le.mp (Real.abs_sin_le_one 6.28318)
  refine ⟨?_, ?_, ?_⟩
  · rw [mainGetShape_flower_zero]
    unfold mainGetShape
    rw [if_neg (by norm_num : ¬ (1:ℝ) < 0.5), if_pos (by norm_num : (1:ℝ) < 1.5)]
    simp only [one_mul]
    rw [mul_comm (6.28318 : ℝ) 6, abs_le]
    constructor <;> nlinarith
  · rw [mainGetShape_flower_zero]
    unfold mainGetShape
    rw [if_neg (by norm_num : ¬ (1:ℝ) < 0.5), if_pos (by norm_num : (1:ℝ) < 1.5)]
    simp only [one_mul]
    rw [mul_comm (6.28318 : ℝ) 6, abs_le]
    constructor <;> nlinarith
  · rw [mainGetShape_flower_zero]
    unfold mainGetShape
    rw [if_neg (by norm_num : ¬ (1:ℝ) < 0.5), if_pos (by norm_num : (1:ℝ) < 1.5)]
    simp only [one_mul]
    norm_num [Real.sin_zero]
    have hs := sin_ten_lt
    have hneg : Real.sin 10 < 0 := by nlinarith
    rw [abs_of_neg hneg]
    nlinarith

/-- The `main.js` Saturn/Ring branch wraps within `2·10⁻⁴` in every
coordinate. -/
lemma main_saturn_wrap :
    |(mainGetShape 2 1).x - (mainGetShape 2 0).x| ≤ 1/5000 ∧
    |(mainGetShape 2 1).y - (mainGetShape 2 0).y| ≤ 1/5000 ∧
    |(mainGetShape 2 1).z - (mainGetShape 2 0).z| ≤ 1/5000 := by
  have hs1 := sin_tau6_k 1
  have hc1 := cos_tau6_k 1
  push_cast at hs1 hc1
  rw [one_mul, one_mul] at hs1
  rw [one_mul, one_mul] at hc1
  obtain ⟨hs1l, hs1r⟩ := abs_le.mp hs1
  obtain ⟨hc1l, hc1r⟩ := abs_le.mp hc1
  refine ⟨?_, ?_, ?_⟩ <;>
    · rw [mainGetShape_saturn_zero]
      unfold mainGetShape
      rw [if_neg (by norm_num : ¬ (2:ℝ) < 0.5), if_neg (by norm_num : ¬ (2:ℝ) < 1.5)]
      simp only [one_mul]
      rw [abs_le]
      constructor <;> linarith

/-- C2 amended: in `part_000`, Heart and Flower wrap (index 1 matches index 0
within `10⁻⁴` in every coordinate — exact up to the shader's truncated 2π
literal) and Saturn wraps in x and y for every time, but Saturn's z ripple has
a seam (phase `index·100`, not a multiple of 2π — see the counterexample).  In
`main.js`, Heart wraps within `2·10⁻⁴` (z identically 0) and the Saturn/Ring
branch wraps within `2·10⁻⁴` in every coordinate, but the Flower branch's
z coordinate `sin(10·i)` has a wrap seam larger than 1/2.  The two z
oscillations built off the 2π convention are exactly the wrap
discontinuities. -/
theorem c2_wrap_tolerance :
    (|(heartShape 1).x - (heartShape 0).x| ≤ 1/10000 ∧
     |(heartShape 1).y - (heartShape 0).y| ≤ 1/10000 ∧
     (heartShape 1).z = (heartShape 0).z) ∧
    (|(flowerShape 1).x - (flowerShape 0).x| ≤ 1/10000 ∧
     |(flowerShape 1).y - (flowerShape 0).y| ≤ 1/10000 ∧
     |(flowerShape 1).z - (flowerShape 0).z| ≤ 1/10000) ∧
    (∀ t : ℝ, |(saturnShape t 1).x - (saturnShape t 0).x| ≤ 1/10000 ∧
      |(saturnShape t 1).y - (saturnShape t 0).y| ≤ 1/10000) ∧
    (|(mainGetShape 0 1).x - (mainGetShape 0 0).x| ≤ 1/5000 ∧
     |(mainGetShape 0 1).y - (mainGetShape 0 0).y| ≤ 1/5000 ∧
     (mainGetShape 0 1).z = (mainGetShape 0 0).z) ∧
    (|(mainGetShape 1 1).x - (mainGetShape 1 0).x| ≤ 1/5000 ∧
     |(mainGetShape 1 1).y - (mainGetShape 1 0).y| ≤ 1/5000 ∧
     1/2 < |(mainGetShape 1 1).z - (mainGetShape 1 0).z|) ∧
    (|(mainGetShape 2 1).x - (mainGetShape 2 0).x| ≤ 1/5000 ∧
     |(mainGetShape 2 1).y - (mainGetShape 2 0).y| ≤ 1/5000 ∧
     |(mainGetShape 2 1).z - (mainGetShape 2 0).z| ≤ 1/5000) :=
  ⟨heart_wrap, flower_wrap, fun t => saturn_wrap_xy t,
   main_heart_wrap, main_flower_wrap, main_saturn_wrap⟩
